import Mathlib

/-!
Verification of the amazon-stock-checker-v2 core against its specification.

The development shallowly embeds the Python sources:
  * `src/captcha_solvers/__init__.py` — CAPTCHA strategy list and the
    `solve_if_captcha` entry point;
  * `src/checker.py` — `check_product`, `_handle_captcha`, `_detect_stock`
    and the metadata extraction helpers;
  * `src/state.py` — `StateManager.record_success` / `record_error` /
    `record_alert` over per-ASIN `ProductState` records;
  * `src/main.py` — the per-product block of the poll loop (alert,
    escalation and rotation policies).

Page interaction is modelled by an oracle: a `PageState` records the
observable answers the page would give to the selector queries the code
performs, and a `CheckEnv` supplies the HTTP status of the initial
navigation plus the stream of page states produced by successive
navigations.  Query failures (Python exceptions swallowed by the code's
`try`/`except` blocks) are modelled by `Option` fields being `none`.
-/

namespace StockChecker

/-- Case-insensitive lowering, mirroring Python's `str.lower()` on the
ASCII text the signals consist of. -/
def lowerStr (s : String) : String :=
  String.mk (s.data.map Char.toLower)

/-- Predicate `leadsWith n h` decides whether the character list `n` occurs at the
start of `h` (the primitive used for substring search). -/
def leadsWith : List Char → List Char → Bool
  | [], _ => true
  | _ :: _, [] => false
  | c :: cs, d :: ds => c = d && leadsWith cs ds

/-- Predicate `containsSeq n h` decides whether `n` occurs contiguously anywhere in
`h`; this is Python's `needle in haystack` on strings. -/
def containsSeq (needle : List Char) : List Char → Bool
  | [] => needle.isEmpty
  | d :: ds => leadsWith needle (d :: ds) || containsSeq needle ds

/-- Python's `needle in haystack` substring test. -/
def containsSub (needle haystack : String) : Bool :=
  containsSeq needle.data haystack.data

/-- Observable answers of one rendered page to the queries the checker and
the CAPTCHA solvers perform.  `Option` fields are `none` when the element
is absent or the query raises (the code catches and ignores either). -/
structure PageState where
  /-- Whether `query_selector('form[action="/errors/validateCaptcha"]')` finds a form. -/
  captchaForm : Bool := false
  /-- Result of `inner_text("body")`, `none` when the call raises. -/
  bodyText : Option String := none
  /-- a `button.a-button-text` or `button[type="submit"]` exists. -/
  solveButton : Bool := false
  /-- clicking the button and the subsequent load wait succeed. -/
  clickOk : Bool := false
  /-- Whether `#add-to-cart-button` is present. -/
  addToCartBtn : Bool := false
  /-- Whether `#add-to-cart-button-ubb` is present. -/
  addToCartBtnUbb : Bool := false
  /-- Whether `#buy-now-button` is present. -/
  buyNowBtn : Bool := false
  /-- Whether `#unqualifiedBuyBox` is present. -/
  unqualifiedBuyBox : Bool := false
  /-- Inner text of `#availability`, `none` when absent or raising. -/
  availabilityText : Option String := none
  /-- Inner text of `#productTitle` (stripped), `none` when absent or raising. -/
  productTitle : Option String := none
  /-- Inner text of `span.a-price-whole` (stripped). -/
  priceWhole : Option String := none
  /-- Inner text of `span.a-price-fraction` (stripped). -/
  priceFraction : Option String := none
  /-- Inner text of `#merchant-info` (stripped). -/
  merchantInfo : Option String := none
  /-- Inner text of `#tabular-buybox-container` (stripped). -/
  tabularBuybox : Option String := none
deriving DecidableEq

/-- A CAPTCHA solver strategy: `detect` and `solve`, as in the
`CaptchaSolver` protocol of `captcha_solvers/__init__.py`. -/
structure CaptchaSolver where
  detect : PageState → Bool
  solve : PageState → Bool

/-- Detection of `SoftCaptchaSolver`: the dismissal form, or the known phrase in
the page's visible text; any exception yields `false`. -/
def softDetect (p : PageState) : Bool :=
  if p.captchaForm then true
  else
    match p.bodyText with
    | none => false
    | some t => containsSub "click the button below to continue shopping" (lowerStr t)

/-- Solving of `SoftCaptchaSolver`: succeeds iff a dismissal button exists and
clicking it (plus the bounded load wait) does not raise. -/
def softSolve (p : PageState) : Bool :=
  p.solveButton && p.clickOk

/-- The soft-interception strategy. -/
def softCaptchaSolver : CaptchaSolver :=
  { detect := softDetect, solve := softSolve }

/-- Model of `ImageCaptchaSolver`: detection stubbed to always-false; `solve` logs
and returns false. -/
def imageCaptchaSolver : CaptchaSolver :=
  { detect := fun _ => false, solve := fun _ => false }

/-- The fixed ordered solver registry `SOLVERS`. -/
def SOLVERS : List CaptchaSolver :=
  [softCaptchaSolver, imageCaptchaSolver]

/-- The loop body of `solve_if_captcha`: try each solver in order; the
first whose `detect` returns true gets to `solve`, and its result is
returned immediately. -/
def solversTry : List CaptchaSolver → PageState → Bool
  | [], _ => false
  | s :: rest, p => if s.detect p then s.solve p else solversTry rest p

/-- Function `solve_if_captcha(page)` from `captcha_solvers/__init__.py`. -/
def solve_if_captcha (p : PageState) : Bool :=
  solversTry SOLVERS p

/-- Spec-side notion "some strategy's detect returned true on this page"
(used to compare the actual return value of `solve_if_captcha` against the
spec's description of it). -/
def captchaDetected (p : PageState) : Bool :=
  SOLVERS.any fun s => s.detect p

/-- Constant `OUT_OF_STOCK_SIGNALS` from `checker.py`. -/
def OUT_OF_STOCK_SIGNALS : List String :=
  ["currently unavailable",
   "out of stock",
   "sign up for restock",
   "we don't know when or if this item will be back in stock",
   "no featured offers available"]

/-- The `#availability` scan of `_detect_stock`: some out-of-stock signal
occurs in the region's lowercased text (false when the element is absent
or the query raised). -/
def availabilityMatches (p : PageState) : Bool :=
  match p.availabilityText with
  | none => false
  | some t => OUT_OF_STOCK_SIGNALS.any fun sig => containsSub sig (lowerStr t)

/-- The whole-page scan of `_detect_stock` over `inner_text("body")`. -/
def bodyMatches (p : PageState) : Bool :=
  match p.bodyText with
  | none => false
  | some t => OUT_OF_STOCK_SIGNALS.any fun sig => containsSub sig (lowerStr t)

/-- Function `_detect_stock(page)` from `checker.py`: tri-state availability with
the fixed precedence purchase controls → unqualified buy box →
availability-region scan → whole-page scan → unknown. -/
def detect_stock (p : PageState) : Option Bool :=
  if (p.addToCartBtn || p.addToCartBtnUbb) || p.buyNowBtn then some true
  else if p.unqualifiedBuyBox then some false
  else if availabilityMatches p then some false
  else if bodyMatches p then some false
  else none

/-- Function `_extract_title(page)`. -/
def extract_title (p : PageState) : Option String :=
  p.productTitle

/-- Function `_extract_price(page)`: the dollar sign + whole part + fractional part (empty when
the fraction element is missing); `none` when the whole part is missing. -/
def extract_price (p : PageState) : Option String :=
  match p.priceWhole with
  | none => none
  | some w => some ("$" ++ w ++ p.priceFraction.getD "")

/-- Function `_extract_sold_by(page)`: `#merchant-info` first, then the tabular
buy-box container. -/
def extract_sold_by (p : PageState) : Option String :=
  match p.merchantInfo with
  | some t => some t
  | none => p.tabularBuybox

/-- The (relevant fields of the) `CheckResult` class of
`notifiers/__init__.py`. -/
structure CheckResult where
  asin : String
  url : String
  in_stock : Option Bool := none
  title : Option String := none
  price : Option String := none
  error : Option String := none
  sold_by : Option String := none
deriving DecidableEq

/-- Property `ok` of `CheckResult`: true iff the error field is absent. -/
def CheckResult.ok (r : CheckResult) : Bool :=
  r.error.isNone

/-- Environment of one `check_product` call: the HTTP status the initial
navigation produced (`none` when `page.goto` returned no response object)
and the page state observed after the `n`-th navigation (navigation 0 is
the initial `goto`; each re-navigation of the CAPTCHA loop advances the
index). -/
structure CheckEnv where
  resp : Option Nat
  pages : Nat → PageState

/-- Observable outcome of `_handle_captcha`: its return value, the error
it may have set, how many times it invoked `solve_if_captcha`, and the
index of the navigation whose page is current when it returns. -/
structure CaptchaOutcome where
  encountered : Bool
  error : Option String
  solveCalls : Nat
  finalIdx : Nat
deriving DecidableEq

/-- Function `_handle_captcha(page, url, asin, result, debug_dir)` from
`checker.py`: up to three `solve_if_captcha` rounds with a re-navigation
after each round that returns true (except the last), setting the
persistent-CAPTCHA error when all three rounds return true. -/
def handleCaptcha (env : CheckEnv) : CaptchaOutcome :=
  if solve_if_captcha (env.pages 0) then
    if solve_if_captcha (env.pages 1) then
      if solve_if_captcha (env.pages 2) then
        { encountered := true,
          error := some "Persistent CAPTCHA after 3 solve attempts",
          solveCalls := 3, finalIdx := 2 }
      else
        { encountered := true, error := none, solveCalls := 3, finalIdx := 2 }
    else
      { encountered := true, error := none, solveCalls := 2, finalIdx := 1 }
  else
    { encountered := false, error := none, solveCalls := 1, finalIdx := 0 }

/-- Trace of one `check_product` call: the error messages passed to the
Debug collaborator's `capture`, the number of `solve_if_captcha`
invocations, whether the content wait (`wait_for_selector("#productTitle")`)
ran, and whether stock detection / metadata extraction ran. -/
structure CheckTrace where
  captures : List String := []
  solveCalls : Nat := 0
  contentWait : Bool := false
  parsed : Bool := false
deriving DecidableEq

/-- The portion of `check_product` after the response-status gate: content
wait, CAPTCHA interception, then parsing (metadata extraction and stock
detection, with the undeterminable-status error when detection yields
unknown). -/
def checkProductBody (env : CheckEnv) (r0 : CheckResult) : CheckResult × CheckTrace :=
  let hc := handleCaptcha env
  match hc.error with
  | some e =>
      ({ r0 with error := some e },
       { captures := [e], solveCalls := hc.solveCalls, contentWait := true,
         parsed := false })
  | none =>
      let p := env.pages hc.finalIdx
      let stock := detect_stock p
      let err : Option String :=
        if stock = none then
          some "Could not determine stock status (page structure may have changed)"
        else none
      ({ r0 with title := extract_title p, price := extract_price p,
                 sold_by := extract_sold_by p, in_stock := stock, error := err },
       { captures := match err with | some e => [e] | none => [],
         solveCalls := hc.solveCalls, contentWait := true, parsed := true })

/-- Function `check_product(page, product, domain, debug_dir)` from `checker.py`.
The response-status gate: a 503 status yields the rate-limited error, any
other non-200 status yields `HTTP <code>`; both capture debug artifacts
and return immediately.  A missing response object skips the gate. -/
def check_product (env : CheckEnv) (asin domain : String) : CheckResult × CheckTrace :=
  let url := "https://www." ++ domain ++ "/dp/" ++ asin
  let r0 : CheckResult := { asin := asin, url := url }
  match env.resp with
  | some s =>
      if s = 503 then
        ({ r0 with error := some "CAPTCHA / rate limited (503)" },
         { captures := ["CAPTCHA / rate limited (503)"] })
      else if s ≠ 200 then
        ({ r0 with error := some ("HTTP " ++ toString s) },
         { captures := ["HTTP " ++ toString s] })
      else
        checkProductBody env r0
  | none => checkProductBody env r0

/-- The `ProductState` dataclass of `state.py`.  Timestamps are abstracted
to natural numbers; the error counter is a Python `int`, hence `Int`. -/
structure ProductState where
  in_stock : Option Bool := none
  consecutive_errors : Int := 0
  priority : String := "normal"
  last_checked : Option Nat := none
  last_alert : Option Nat := none
deriving DecidableEq

/-- The `StateManager`'s per-ASIN store, viewed functionally: `get`
creates a default record lazily, so the store is total with default
`ProductState`. -/
def StateMap : Type :=
  String → ProductState

/-- The store as loaded fresh (no state file): every ASIN at the default
record. -/
def initState : StateMap :=
  fun _ => {}

/-- Point update of the store. -/
def setState (st : StateMap) (asin : String) (ps : ProductState) : StateMap :=
  fun a => if a = asin then ps else st a

/-- Method `record_success` of `StateManager`: resets the error count to 0, updates
availability, priority and the last-checked timestamp, and returns the
updated record. -/
def record_success (st : StateMap) (asin : String) (inStock : Option Bool)
    (prio : String) (now : Nat) : StateMap × ProductState :=
  let ps := st asin
  let ps2 := { ps with consecutive_errors := 0, in_stock := inStock,
                       priority := prio, last_checked := some now }
  (setState st asin ps2, ps2)

/-- Method `record_error` of `StateManager`: increments the error count and returns
the new count. -/
def record_error (st : StateMap) (asin : String) : StateMap × Int :=
  let ps := st asin
  let ps2 := { ps with consecutive_errors := ps.consecutive_errors + 1 }
  (setState st asin ps2, ps2.consecutive_errors)

/-- Method `record_alert` of `StateManager`: stamps the last-alert timestamp. -/
def record_alert (st : StateMap) (asin : String) (now : Nat) : StateMap :=
  setState st asin { st asin with last_alert := some now }

/-- Events the per-product block of `main` can emit for one outcome. -/
structure StepEvents where
  restockAlert : Bool := false
  errorNotice : Bool := false
  rotation : Bool := false
deriving DecidableEq

/-- The per-product block of `main` (`main.py` lines 107–137): reads the
previous availability, then on a non-ok outcome records the error and
applies the escalation (count = 5) and rotation (count ≥ 3 and divisible
by 3) policies; on an ok outcome records the success and fires a restock
alert (stamping the last-alert timestamp) iff the outcome is in stock and
the previous availability was not exactly `true`. -/
def mainStep (st : StateMap) (asin prio : String) (res : CheckResult)
    (now : Nat) : StateMap × StepEvents :=
  let prevInStock := (st asin).in_stock
  if res.ok then
    let (st1, _) := record_success st asin res.in_stock prio now
    if res.in_stock = some true then
      if prevInStock ≠ some true then
        (record_alert st1 asin now, { restockAlert := true })
      else (st1, {})
    else (st1, {})
  else
    let (st1, cnt) := record_error st asin
    (st1, { errorNotice := cnt = 5,
            rotation := decide (3 ≤ cnt) && decide (cnt % 3 = 0) })

/-- The store after running the per-product block over a whole sequence of
outcomes for one identifier, starting from the fresh store. -/
def mainRun (asin prio : String) (now : Nat) (outs : List CheckResult) : StateMap :=
  outs.foldl (fun st r => (mainStep st asin prio r now).1) initState

/-! ### Concrete inputs used by witnesses and counterexamples -/

/-- A page showing the CAPTCHA dismissal form together with a working
dismissal button. -/
def pSolvable : PageState :=
  { captchaForm := true, solveButton := true, clickOk := true }

/-- A page showing the CAPTCHA dismissal form but no dismissal button, so
detection succeeds and solving fails. -/
def pStuckCaptcha : PageState :=
  { captchaForm := true }

/-- An environment in which every navigation lands on a solvable CAPTCHA
page. -/
def envPersistent : CheckEnv :=
  { resp := none, pages := fun _ => pSolvable }

/-- An environment whose first two navigations land on solvable CAPTCHA
pages and whose third lands on a CAPTCHA page with no dismissal button:
the challenge is detected on all three rounds but the third solve fails. -/
def envDetectedThrice : CheckEnv :=
  { resp := some 200, pages := fun n => if n ≤ 1 then pSolvable else pStuckCaptcha }

/-- An environment that returns HTTP 404 on the initial navigation. -/
def envHTTP404 : CheckEnv :=
  { resp := some 404, pages := fun _ => {} }

/-- An environment with no CAPTCHA and a page carrying metadata but no
stock signal at all, so availability resolves to unknown. -/
def envUnknownStock : CheckEnv :=
  { resp := none,
    pages := fun _ =>
      { productTitle := some "Gadget Deluxe",
        priceWhole := some "19.",
        priceFraction := some "99",
        merchantInfo := some "Sold by Example and Ships from Example" } }

/-- A page with a purchase control and the no-buy-box marker present at
the same time. -/
def pBuyAndNoBuyBox : PageState :=
  { addToCartBtn := true, unqualifiedBuyBox := true }

/-- An ok in-stock outcome. -/
def resInStock : CheckResult :=
  { asin := "A1", url := "https://www.amazon.ca/dp/A1", in_stock := some true }

/-- A failed outcome. -/
def resFailed : CheckResult :=
  { asin := "A1", url := "https://www.amazon.ca/dp/A1",
    error := some "Page load timeout" }

/-- A store holding four consecutive errors for `A1`. -/
def stFourErrors : StateMap :=
  setState initState "A1" { consecutive_errors := 4 }

/-- A store holding two consecutive errors for `A1`. -/
def stTwoErrors : StateMap :=
  setState initState "A1" { consecutive_errors := 2 }

/-! ### Theorems -/

/-- C3 (amended): `solve_if_captcha` returns the `solve` result of the
first strategy whose `detect` returns true (with the shipped registry:
the soft solver, since the image solver never detects), so it is true iff
the soft solver both detects and solves; it is NOT true merely because a
strategy detected a challenge. -/
theorem c3_solve_if_captcha_returns_solve_result (p : PageState) :
    solve_if_captcha p = (softDetect p && softSolve p) := by
  unfold solve_if_captcha SOLVERS solversTry softCaptchaSolver imageCaptchaSolver
  cases h : softDetect p <;> simp [h, solversTry]

/-- C3 counterexample: on a page showing the CAPTCHA dismissal form but no
dismissal button, a strategy's `detect` returns true yet
`solve_if_captcha` returns false — refuting "returns true iff some
strategy's detect returned true, regardless of the solve result". -/
theorem c3_counterexample_detected_but_unsolved :
    captchaDetected pStuckCaptcha = true ∧ solve_if_captcha pStuckCaptcha = false := by
  decide

/-- C5: `_detect_stock` follows the fixed precedence: a present purchase
control yields `some true` regardless of every other signal (in particular
with the no-buy-box marker present); otherwise the no-buy-box marker
yields `some false`; otherwise an out-of-stock match in the availability
region yields `some false`; otherwise an out-of-stock match in the whole
page text yields `some false`; otherwise the result is `none`, never
coerced to `some false`. -/
theorem c5_detect_stock_precedence (p : PageState) :
    (((p.addToCartBtn || p.addToCartBtnUbb) || p.buyNowBtn) = true →
      detect_stock p = some true) ∧
    (((p.addToCartBtn || p.addToCartBtnUbb) || p.buyNowBtn) = false →
      p.unqualifiedBuyBox = true → detect_stock p = some false) ∧
    (((p.addToCartBtn || p.addToCartBtnUbb) || p.buyNowBtn) = false →
      p.unqualifiedBuyBox = false → availabilityMatches p = true →
      detect_stock p = some false) ∧
    (((p.addToCartBtn || p.addToCartBtnUbb) || p.buyNowBtn) = false →
      p.unqualifiedBuyBox = false → availabilityMatches p = false →
      bodyMatches p = true → detect_stock p = some false) ∧
    (((p.addToCartBtn || p.addToCartBtnUbb) || p.buyNowBtn) = false →
      p.unqualifiedBuyBox = false → availabilityMatches p = false →
      bodyMatches p = false → detect_stock p = none) := by
  refine ⟨?_, ?_, ?_, ?_, ?_⟩
  · intro h; simp [detect_stock, h]
  · intro h hq; simp [detect_stock, h, hq]
  · intro h hq ha; simp [detect_stock, h, hq, ha]
  · intro h hq ha hb; simp [detect_stock, h, hq, ha, hb]
  · intro h hq ha hb; simp [detect_stock, h, hq, ha, hb]

/-- C5 witness: on a page carrying both an add-to-cart button and the
no-buy-box marker, rule 1 dominates and the result is `some true`. -/
theorem c5_witness_buy_button_dominates :
    detect_stock pBuyAndNoBuyBox = some true :=
  (c5_detect_stock_precedence pBuyAndNoBuyBox).1 (by decide)

/-- The CAPTCHA loop invokes `solve_if_captcha` between one and three
times. -/
theorem handleCaptcha_solveCalls_bounds (env : CheckEnv) :
    1 ≤ (handleCaptcha env).solveCalls ∧ (handleCaptcha env).solveCalls ≤ 3 := by
  unfold handleCaptcha
  repeat' split
  all_goals simp

/-- The post-gate phase reports the same `solve_if_captcha` call count as
the CAPTCHA loop. -/
theorem checkProductBody_solveCalls (env : CheckEnv) (r0 : CheckResult) :
    (checkProductBody env r0).2.solveCalls = (handleCaptcha env).solveCalls := by
  unfold checkProductBody
  cases h : (handleCaptcha env).error <;> simp [h]

/-- The post-gate phase always runs the content wait. -/
theorem checkProductBody_contentWait (env : CheckEnv) (r0 : CheckResult) :
    (checkProductBody env r0).2.contentWait = true := by
  unfold checkProductBody
  cases h : (handleCaptcha env).error <;> simp [h]

/-- C2 (amended): per check, the CAPTCHA-interception loop invokes
`solve_if_captcha` (hence challenge detection) at most 3 times; and
whenever the gate passed and `solve_if_captcha` returns true on all three
rounds — a challenge detected AND reported solved each time — the check
terminates with the terminal error "Persistent CAPTCHA after 3 solve
attempts" and stock detection / metadata extraction never run.  (Detection
alone on all 3 rounds does not suffice; see the counterexample.) -/
theorem c2_persistent_captcha_after_three (env : CheckEnv) (asin domain : String) :
    (check_product env asin domain).2.solveCalls ≤ 3 ∧
    ((env.resp = none ∨ env.resp = some 200) →
      solve_if_captcha (env.pages 0) = true →
      solve_if_captcha (env.pages 1) = true →
      solve_if_captcha (env.pages 2) = true →
      (check_product env asin domain).1.error =
        some "Persistent CAPTCHA after 3 solve attempts" ∧
      (check_product env asin domain).2.parsed = false) := by
  constructor
  · unfold check_product
    cases h : env.resp with
    | none => simpa [checkProductBody_solveCalls] using (handleCaptcha_solveCalls_bounds env).2
    | some s =>
        by_cases h503 : s = 503
        · simp [h503]
        · by_cases h200 : s = 200
          · simpa [h503, h200, checkProductBody_solveCalls] using
              (handleCaptcha_solveCalls_bounds env).2
          · simp [h503, h200]
  · intro hresp h0 h1 h2
    have hhc : handleCaptcha env =
        { encountered := true,
          error := some "Persistent CAPTCHA after 3 solve attempts",
          solveCalls := 3, finalIdx := 2 } := by
      unfold handleCaptcha
      simp [h0, h1, h2]
    have hbody : ∀ r0 : CheckResult,
        (checkProductBody env r0).1.error =
          some "Persistent CAPTCHA after 3 solve attempts" ∧
        (checkProductBody env r0).2.parsed = false := by
      intro r0
      unfold checkProductBody
      simp [hhc]
    rcases hresp with h | h <;> · unfold check_product; simp [h, hbody]

/-- C2 witness: with every navigation landing on a solvable CAPTCHA page,
all three rounds report true and the check ends with the persistent
CAPTCHA error, unparsed. -/
theorem c2_witness_three_rounds :
    (check_product envPersistent "B0X" "amazon.ca").1.error =
      some "Persistent CAPTCHA after 3 solve attempts" ∧
    (check_product envPersistent "B0X" "amazon.ca").2.parsed = false :=
  (c2_persistent_captcha_after_three envPersistent "B0X" "amazon.ca").2
    (Or.inl rfl) (by decide) (by decide) (by decide)

/-- C2 counterexample: the challenge is detected on all three consecutive
rounds, yet — because the third solve fails — no persistent-CAPTCHA error
is set and the check goes on to run stock detection, refuting the claim as
stated. -/
theorem c2_counterexample_detected_thrice_still_parses :
    captchaDetected (envDetectedThrice.pages 0) = true ∧
    captchaDetected (envDetectedThrice.pages 1) = true ∧
    captchaDetected (envDetectedThrice.pages 2) = true ∧
    (check_product envDetectedThrice "B0X" "amazon.ca").2.solveCalls = 3 ∧
    (check_product envDetectedThrice "B0X" "amazon.ca").1.error ≠
      some "Persistent CAPTCHA after 3 solve attempts" ∧
    (check_product envDetectedThrice "B0X" "amazon.ca").2.parsed = true := by
  decide

/-- C8: when the initial navigation yields a response with a non-200
status, a 503 produces the terminal rate-limited/CAPTCHA error and any
other status produces `HTTP <code>`; in both cases exactly one Debug
capture with that message occurs and the check returns immediately —
no content wait, no CAPTCHA round, no parsing. -/
theorem c8_status_gate (env : CheckEnv) (asin domain : String) (s : Nat)
    (hresp : env.resp = some s) (hne : s ≠ 200) :
    (check_product env asin domain).1.error =
      some (if s = 503 then "CAPTCHA / rate limited (503)" else "HTTP " ++ toString s) ∧
    (check_product env asin domain).2.captures =
      [if s = 503 then "CAPTCHA / rate limited (503)" else "HTTP " ++ toString s] ∧
    (check_product env asin domain).2.contentWait = false ∧
    (check_product env asin domain).2.solveCalls = 0 ∧
    (check_product env asin domain).2.parsed = false := by
  unfold check_product
  by_cases h503 : s = 503 <;> simp [hresp, h503, hne]

/-- C8 witness: a 404 response yields the error `HTTP 404`, a single debug
capture, and an immediate return. -/
theorem c8_witness_http404 :
    (check_product envHTTP404 "A1" "amazon.com").1.error = some "HTTP 404" ∧
    (check_product envHTTP404 "A1" "amazon.com").2.captures = ["HTTP 404"] ∧
    (check_product envHTTP404 "A1" "amazon.com").2.parsed = false := by
  have h := c8_status_gate envHTTP404 "A1" "amazon.com" 404 rfl (by decide)
  refine ⟨?_, ?_, h.2.2.2.2⟩
  · rw [h.1]; decide
  · rw [h.2.1]; decide

/-- When the CAPTCHA loop set no error, the parse phase fills the result
from the page current after the loop, with the undeterminable-status
error exactly when stock detection yields unknown. -/
theorem checkProductBody_unknown (env : CheckEnv) (r0 : CheckResult)
    (hp : (checkProductBody env r0).2.parsed = true)
    (hu : (checkProductBody env r0).1.in_stock = none) :
    (checkProductBody env r0).1.error =
      some "Could not determine stock status (page structure may have changed)" ∧
    (checkProductBody env r0).1.title =
      extract_title (env.pages (handleCaptcha env).finalIdx) ∧
    (checkProductBody env r0).1.price =
      extract_price (env.pages (handleCaptcha env).finalIdx) ∧
    (checkProductBody env r0).1.sold_by =
      extract_sold_by (env.pages (handleCaptcha env).finalIdx) ∧
    (checkProductBody env r0).2.captures =
      ["Could not determine stock status (page structure may have changed)"] := by
  unfold checkProductBody at hp hu ⊢
  cases h : (handleCaptcha env).error with
  | some e => simp [h] at hp
  | none =>
      simp only [h] at hu ⊢
      simp only [hu]
      simp

/-- C9: whenever a check reaches the parse phase and availability resolves
to unknown, the outcome carries the could-not-determine error (hence `ok`
is false), still carries the extracted title, price and seller metadata,
and triggers a Debug capture with that message. -/
theorem c9_unknown_availability_is_error (env : CheckEnv) (asin domain : String)
    (hp : (check_product env asin domain).2.parsed = true)
    (hu : (check_product env asin domain).1.in_stock = none) :
    (check_product env asin domain).1.error =
      some "Could not determine stock status (page structure may have changed)" ∧
    (check_product env asin domain).1.ok = false ∧
    (check_product env asin domain).1.title =
      extract_title (env.pages (handleCaptcha env).finalIdx) ∧
    (check_product env asin domain).1.price =
      extract_price (env.pages (handleCaptcha env).finalIdx) ∧
    (check_product env asin domain).1.sold_by =
      extract_sold_by (env.pages (handleCaptcha env).finalIdx) ∧
    (check_product env asin domain).2.captures =
      ["Could not determine stock status (page structure may have changed)"] := by
  unfold check_product at hp hu ⊢
  cases hresp : env.resp with
  | none =>
      simp only [hresp] at hp hu ⊢
      have h := checkProductBody_unknown env _ hp hu
      exact ⟨h.1, by simp [CheckResult.ok, h.1], h.2.1, h.2.2.1, h.2.2.2.1, h.2.2.2.2⟩
  | some s =>
      by_cases h503 : s = 503
      · simp [hresp, h503] at hp
      · by_cases h200 : s = 200
        · subst h200
          simp only [hresp] at hp hu ⊢
          rw [if_neg (by decide : ¬(200 : Nat) = 503),
              if_neg (by simp : ¬(200 : Nat) ≠ 200)] at hp hu ⊢
          have h := checkProductBody_unknown env _ hp hu
          exact ⟨h.1, by simp [CheckResult.ok, h.1], h.2.1, h.2.2.1, h.2.2.2.1, h.2.2.2.2⟩
        · simp [hresp, h503, h200] at hp

/-- C9 witness: a responseless navigation to a page with metadata but no
stock signal resolves to unknown, and the outcome carries the error, the
metadata and the debug capture. -/
theorem c9_witness_unknown_with_metadata :
    (check_product envUnknownStock "A2" "amazon.com").1.error =
      some "Could not determine stock status (page structure may have changed)" ∧
    (check_product envUnknownStock "A2" "amazon.com").1.ok = false ∧
    (check_product envUnknownStock "A2" "amazon.com").1.title =
      extract_title (envUnknownStock.pages (handleCaptcha envUnknownStock).finalIdx) ∧
    (check_product envUnknownStock "A2" "amazon.com").1.price =
      extract_price (envUnknownStock.pages (handleCaptcha envUnknownStock).finalIdx) ∧
    (check_product envUnknownStock "A2" "amazon.com").1.sold_by =
      extract_sold_by (envUnknownStock.pages (handleCaptcha envUnknownStock).finalIdx) ∧
    (check_product envUnknownStock "A2" "amazon.com").2.captures =
      ["Could not determine stock status (page structure may have changed)"] :=
  c9_unknown_availability_is_error envUnknownStock "A2" "amazon.com"
    (by decide) (by decide)

/-- C10: when the initial navigation produces no response object at all,
the status gate is bypassed — the check behaves exactly as if the status
had been 200: identical outcome and trace, the content wait runs, and the
CAPTCHA loop is entered (at least one `solve_if_captcha` round). -/
theorem c10_null_response_bypasses_gate (pages : Nat → PageState) (asin domain : String) :
    check_product { resp := none, pages := pages } asin domain =
      check_product { resp := some 200, pages := pages } asin domain ∧
    (check_product { resp := none, pages := pages } asin domain).2.contentWait = true ∧
    1 ≤ (check_product { resp := none, pages := pages } asin domain).2.solveCalls := by
  refine ⟨rfl, ?_, ?_⟩
  · unfold check_product
    simp [checkProductBody_contentWait]
  · unfold check_product
    simp only []
    rw [checkProductBody_solveCalls]
    exact (handleCaptcha_solveCalls_bounds _).1

/-- An ok outcome resets the stored error count of its identifier to 0. -/
theorem mainStep_ok_resets_count (st : StateMap) (asin prio : String)
    (res : CheckResult) (now : Nat) (h : res.error = none) :
    ((mainStep st asin prio res now).1 asin).consecutive_errors = 0 := by
  unfold mainStep CheckResult.ok
  simp only [h]
  by_cases hin : res.in_stock = some true
  · by_cases hprev : (st asin).in_stock = some true
    · simp [hin, hprev, record_success, setState]
    · simp [hin, hprev, record_success, record_alert, setState]
  · simp [hin, record_success, setState]

/-- A non-ok outcome increments the stored error count of its identifier
by exactly one. -/
theorem mainStep_err_increments_count (st : StateMap) (asin prio : String)
    (res : CheckResult) (now : Nat) (h : res.error ≠ none) :
    ((mainStep st asin prio res now).1 asin).consecutive_errors =
      (st asin).consecutive_errors + 1 := by
  unfold mainStep CheckResult.ok
  cases herr : res.error with
  | none => exact absurd herr h
  | some e => simp [herr, record_error, setState]

/-- The events emitted on a non-ok outcome: escalation iff the new count
is exactly 5, rotation iff it is at least 3 and divisible by 3. -/
theorem mainStep_err_events (st : StateMap) (asin prio : String)
    (res : CheckResult) (now : Nat) (e : String) (h : res.error = some e) :
    (mainStep st asin prio res now).2 =
      { errorNotice := decide ((st asin).consecutive_errors + 1 = 5),
        rotation := decide (3 ≤ (st asin).consecutive_errors + 1) &&
                    decide (((st asin).consecutive_errors + 1) % 3 = 0) } := by
  unfold mainStep CheckResult.ok record_error setState
  simp [h]

/-- An ok outcome emits neither a rotation nor an escalation notice. -/
theorem mainStep_ok_quiet (st : StateMap) (asin prio : String)
    (res : CheckResult) (now : Nat) (h : res.error = none) :
    (mainStep st asin prio res now).2.rotation = false ∧
    (mainStep st asin prio res now).2.errorNotice = false := by
  unfold mainStep CheckResult.ok
  simp only [h]
  by_cases hin : res.in_stock = some true
  · by_cases hprev : (st asin).in_stock = some true <;>
      simp [hin, hprev, record_success, record_alert]
  · simp [hin, record_success]

/-- One step preserves nonnegativity of every stored error count. -/
theorem mainStep_preserves_nonneg (st : StateMap) (asin prio : String)
    (res : CheckResult) (now : Nat)
    (h : ∀ b, 0 ≤ (st b).consecutive_errors) (a : String) :
    0 ≤ ((mainStep st asin prio res now).1 a).consecutive_errors := by
  by_cases ha : a = asin
  · subst ha
    cases herr : res.error with
    | none => rw [mainStep_ok_resets_count st a prio res now herr]
    | some e =>
        rw [mainStep_err_increments_count st a prio res now (by simp [herr])]
        have := h a
        omega
  · have huntouched : (mainStep st asin prio res now).1 a = st a := by
      unfold mainStep
      cases hok : res.ok
      · simp [hok, record_error, setState, ha]
      · by_cases hin : res.in_stock = some true
        · by_cases hprev : (st asin).in_stock = some true
          · simp [hok, hin, hprev, record_success, setState, ha]
          · simp [hok, hin, hprev, record_success, record_alert, setState, ha]
        · simp [hok, hin, record_success, setState, ha]
    rw [huntouched]
    exact h a

/-- Every state reachable by folding outcomes from the fresh store has
nonnegative error counts. -/
theorem mainRun_nonneg (asin prio : String) (now : Nat) (outs : List CheckResult)
    (a : String) : 0 ≤ ((mainRun asin prio now outs) a).consecutive_errors := by
  have key : ∀ (l : List CheckResult) (st : StateMap),
      (∀ b, 0 ≤ (st b).consecutive_errors) →
      ∀ b,
        0 ≤ ((l.foldl (fun st r => (mainStep st asin prio r now).1) st) b).consecutive_errors := by
    intro l
    induction l with
    | nil => intro st h b; simpa using h b
    | cons r rest ih =>
        intro st h b
        simp only [List.foldl_cons]
        exact ih _ (fun c => mainStep_preserves_nonneg st asin prio r now h c) b
  exact key outs initState (fun _ => le_refl 0) a

/-- C1: in every state reachable for one identifier (indeed in every
state), the per-product block fires a restock alert exactly when the
outcome is ok and in stock and the previously stored availability was not
exactly `true` (unknown or false, including the very first observation);
and whenever it fires, the last-alert timestamp is stamped. -/
theorem c1_restock_alert_policy (st : StateMap) (asin prio : String)
    (res : CheckResult) (now : Nat) :
    ((mainStep st asin prio res now).2.restockAlert = true ↔
      (res.error = none ∧ res.in_stock = some true ∧
        (st asin).in_stock ≠ some true)) ∧
    ((mainStep st asin prio res now).2.restockAlert = true →
      ((mainStep st asin prio res now).1 asin).last_alert = some now) := by
  unfold mainStep CheckResult.ok
  cases herr : res.error with
  | some e => simp [herr]
  | none =>
      by_cases hin : res.in_stock = some true
      · by_cases hprev : (st asin).in_stock = some true
        · simp [herr, hin, hprev]
        · simp [herr, hin, hprev, record_success, record_alert, setState]
      · simp [herr, hin]

/-- C1 witness: on the very first observation of `A1` (availability
unknown) an ok in-stock outcome fires the alert and stamps the last-alert
timestamp. -/
theorem c1_witness_first_observation_alerts :
    (mainStep initState "A1" "high" resInStock 7).2.restockAlert = true ∧
    ((mainStep initState "A1" "high" resInStock 7).1 "A1").last_alert = some 7 := by
  have h := c1_restock_alert_policy initState "A1" "high" resInStock 7
  have ha : (mainStep initState "A1" "high" resInStock 7).2.restockAlert = true :=
    h.1.mpr (by decide)
  exact ⟨ha, h.2 ha⟩

/-- C4: from any reachable store, the stored consecutive error count is
exactly 0 after an ok outcome; after a non-ok outcome it is the previous
count plus one, in particular strictly positive (so it is 0 only right
after an ok outcome); and it is never negative. -/
theorem c4_error_count_dynamics (asin prio : String) (now : Nat)
    (outs : List CheckResult) (res : CheckResult) :
    (res.error = none →
      ((mainStep (mainRun asin prio now outs) asin prio res now).1 asin).consecutive_errors
        = 0) ∧
    (res.error ≠ none →
      ((mainStep (mainRun asin prio now outs) asin prio res now).1 asin).consecutive_errors
          = ((mainRun asin prio now outs) asin).consecutive_errors + 1 ∧
      0 < ((mainStep (mainRun asin prio now outs) asin prio res now).1 asin).consecutive_errors) ∧
    0 ≤ ((mainStep (mainRun asin prio now outs) asin prio res now).1 asin).consecutive_errors := by
  refine ⟨fun h => mainStep_ok_resets_count _ _ _ _ _ h, fun h => ?_, ?_⟩
  · have hinc := mainStep_err_increments_count (mainRun asin prio now outs) asin prio res now h
    have hnn := mainRun_nonneg asin prio now outs asin
    exact ⟨hinc, by omega⟩
  · cases herr : res.error with
    | none => rw [mainStep_ok_resets_count _ _ _ _ _ herr]
    | some e =>
        have hinc := mainStep_err_increments_count (mainRun asin prio now outs) asin prio res now
          (by simp [herr])
        have hnn := mainRun_nonneg asin prio now outs asin
        omega

/-- C4 witness: after one failed outcome, an ok outcome resets the count
of `A1` to 0 (and it is nonnegative). -/
theorem c4_witness_ok_resets :
    ((mainStep (mainRun "A1" "normal" 7 [resFailed]) "A1" "normal" resInStock 7).1 "A1").consecutive_errors = 0 ∧
    0 ≤ ((mainStep (mainRun "A1" "normal" 7 [resFailed]) "A1" "normal" resInStock 7).1 "A1").consecutive_errors := by
  have h := c4_error_count_dynamics "A1" "normal" 7 [resFailed] resInStock
  exact ⟨h.1 rfl, h.2.2⟩

/-- C6: the per-product block requests a session rotation exactly when the
outcome is non-ok and the new stored error count is at least 3 and
divisible by 3 — i.e. at counts 3, 6, 9, … and at no other count. -/
theorem c6_rotation_policy (st : StateMap) (asin prio : String)
    (res : CheckResult) (now : Nat) :
    (mainStep st asin prio res now).2.rotation = true ↔
      (res.error ≠ none ∧
       3 ≤ ((mainStep st asin prio res now).1 asin).consecutive_errors ∧
       ((mainStep st asin prio res now).1 asin).consecutive_errors % 3 = 0) := by
  cases herr : res.error with
  | none =>
      rw [(mainStep_ok_quiet st asin prio res now herr).1]
      simp [herr]
  | some e =>
      rw [mainStep_err_events st asin prio res now e herr,
          mainStep_err_increments_count st asin prio res now (by simp [herr])]
      simp

/-- C6 witness: the third consecutive error (count 2 → 3) triggers a
rotation. -/
theorem c6_witness_third_error_rotates :
    (mainStep stTwoErrors "A1" "normal" resFailed 7).2.rotation = true :=
  (c6_rotation_policy stTwoErrors "A1" "normal" resFailed 7).mpr (by decide)

/-- C7: the per-product block sends the error-escalation notification
exactly when the outcome is non-ok and the new stored error count equals
5 — a single-shot threshold, never firing at any other count (in
particular not at 10, 15, …). -/
theorem c7_error_escalation_policy (st : StateMap) (asin prio : String)
    (res : CheckResult) (now : Nat) :
    (mainStep st asin prio res now).2.errorNotice = true ↔
      (res.error ≠ none ∧
       ((mainStep st asin prio res now).1 asin).consecutive_errors = 5) := by
  cases herr : res.error with
  | none =>
      rw [(mainStep_ok_quiet st asin prio res now herr).2]
      simp [herr]
  | some e =>
      rw [mainStep_err_events st asin prio res now e herr,
          mainStep_err_increments_count st asin prio res now (by simp [herr])]
      simp

/-- C7 witness: the fifth consecutive error (count 4 → 5) triggers the
escalation notice. -/
theorem c7_witness_fifth_error_notifies :
    (mainStep stFourErrors "A1" "normal" resFailed 7).2.errorNotice = true :=
  (c7_error_escalation_policy stFourErrors "A1" "normal" resFailed 7).mpr (by decide)

end StockChecker

